import Mathlib

/-!
Shallow embedding of the webhook delivery pipeline (ingest handler, event
store operations, delivery worker, HMAC validator, circuit breaker).

Conventions:
* instants and durations are rationals (seconds);
* raw request bodies are byte lists (`List Nat`);
* external library functions (JSON parsing, HMAC-SHA256 hex digest) are
  passed as parameters, since they live outside the repository;
* a MongoDB collection is a list of documents; the document shape is the
  pydantic `WebhookEvent` model (what `to_mongo` actually persists).
-/

/-- JSON values, used for webhook payloads. -/
inductive JVal where
  | jnull : JVal
  | jbool : Bool → JVal
  | jnum : Rat → JVal
  | jstr : String → JVal
  | jarr : List JVal → JVal
  | jobj : List (String × JVal) → JVal

/-- Python truthiness of a JSON value. -/
def truthy : JVal → Bool
  | .jnull => false
  | .jbool b => b
  | .jnum q => q != 0
  | .jstr s => s != ""
  | .jarr xs => !xs.isEmpty
  | .jobj kvs => !kvs.isEmpty

/-- Look up a key in a JSON object (association list); `some v` when the key
is present with value `v`. -/
def jget (kvs : List (String × JVal)) (k : String) : Option JVal :=
  (kvs.find? (fun p => p.1 == k)).map Prod.snd

/-- Python `dict.get(k)` on a JSON-decoded dict: a JSON `null` value decodes
to Python `None`, indistinguishable from an absent key. -/
def pyGet (kvs : List (String × JVal)) (k : String) : Option JVal :=
  match jget kvs k with
  | some JVal.jnull => none
  | v => v

/-- Python `a or b` on optional JSON values (`None` and falsy values fall
through to the right operand). -/
def pyOr (a b : Option JVal) : Option JVal :=
  match a with
  | none => b
  | some v => if truthy v then some v else b

/-- Source: `routes/webhooks.py` line 76:
`payload.get("event_type") or payload.get("type") or payload.get("event")`. -/
def extract_event_type (payload : List (String × JVal)) : Option JVal :=
  pyOr (pyOr (pyGet payload "event_type") (pyGet payload "type")) (pyGet payload "event")

/-- Modelled from the spec's words (for comparison with the source): the value
of the first key *present* in the payload among `event_type`, `type`, `event`,
and null when none is present. -/
def spec_first_present_event_type (payload : List (String × JVal)) : Option JVal :=
  match jget payload "event_type" with
  | some v => some v
  | none =>
    match jget payload "type" with
    | some v => some v
    | none => jget payload "event"

/-- Truthiness of an optional JSON value (Python `None` is falsy). -/
def optTruthy : Option JVal → Bool
  | some v => truthy v
  | none => false

/-- Amended description of the source's extraction: the first truthy value
among the three keys, defaulting to `payload.get("event")` when none is
truthy. -/
def amended_event_type (payload : List (String × JVal)) : Option JVal :=
  match ([pyGet payload "event_type", pyGet payload "type", pyGet payload "event"]).find? optTruthy with
  | some v => v
  | none => pyGet payload "event"

/-- Application settings (`app/config.py`), restricted to the fields the
claims use; defaults as in the source. -/
structure Settings where
  hmac_secret : String := "dev-secret-key"
  worker_poll_interval : Rat := 1
  max_retry_attempts : Nat := 5
  retry_base_delay : Rat := 1
  retry_max_delay : Rat := 16

/-- The settings with every field at its source default. -/
def default_settings : Settings := {}

/-- Event statuses (`app/models/webhook.py`, `WebhookStatus`). -/
inductive WebhookStatus where
  | RECEIVED
  | PROCESSING
  | DELIVERED
  | FAILED_PERMANENTLY
deriving DecidableEq

/-- One delivery attempt (`app/models/webhook.py`, `DeliveryAttempt`). -/
structure DeliveryAttempt where
  timestamp : Rat
  attempt_number : Nat
  status_code : Option Nat := none
  success : Bool
  error_message : Option String := none
  duration_ms : Option Rat := none
deriving DecidableEq

/-- The persisted event document (`app/models/webhook.py`, `WebhookEvent`).
Note: the pydantic model declares NO `idempotency_key` field; the keyword
argument the route passes is silently dropped (pydantic ignores extra
constructor arguments by default), so persisted documents never carry an
idempotency key. -/
structure WebhookEvent where
  id : Option String := none
  payload : List (String × JVal)
  status : WebhookStatus := .RECEIVED
  received_at : Rat
  event_type : Option JVal := none
  delivery_attempts : List DeliveryAttempt := []
  version : Nat := 1
  next_retry_at : Option Rat := none
  delivered_at : Option Rat := none
  failed_at : Option Rat := none

/-- `insert_one`: the collection has no unique index (see `Database.connect`:
indexes on status, received_at, event_type, (status, next_retry_at) only), so
an insert always succeeds and appends the document. -/
def insert_event (store : List WebhookEvent) (e : WebhookEvent) : List WebhookEvent :=
  store ++ [e]

/-- The idempotency key of a persisted document: always absent, because the
pydantic model has no such field and `to_mongo` dumps only declared fields. -/
def doc_idempotency_key (_e : WebhookEvent) : Option String :=
  none

/-- `db.webhooks.find_one({"idempotency_key": key})` over the collection. -/
def find_by_idempotency_key (store : List WebhookEvent) (k : String) : Option WebhookEvent :=
  store.find? (fun e => doc_idempotency_key e == some k)

/-- The claim filter of `_process_pending_events`: status RECEIVED, or
status PROCESSING with `next_retry_at ≤ now` (a Mongo `$lte` against a date
never matches a null/absent field). -/
def claimable (now : Rat) (e : WebhookEvent) : Bool :=
  match e.status, e.next_retry_at with
  | .RECEIVED, _ => true
  | .PROCESSING, some t => decide (t ≤ now)
  | _, _ => false

/-- The update applied by `_claim_event`'s `find_one_and_update`:
`$set status=PROCESSING`, `$inc version 1`. -/
def claim_update (e : WebhookEvent) : WebhookEvent :=
  { e with status := .PROCESSING, version := e.version + 1 }

/-- `find_one_and_update(query, update, ReturnDocument.AFTER)`: pick a single
matching document, apply the update, return the post-update document and the
new collection; `none` when nothing matches. -/
def claim_next (store : List WebhookEvent) (now : Rat) : Option WebhookEvent × List WebhookEvent :=
  match store with
  | [] => (none, [])
  | e :: rest =>
    if claimable now e then
      (some (claim_update e), claim_update e :: rest)
    else
      let r := claim_next rest now
      (r.1, e :: r.2)

/-- Backoff: `min(retry_base_delay * 2^(n-1), retry_max_delay)`
(`_schedule_retry`, `delivery_worker.py`). -/
def backoff_delay (s : Settings) (n : Nat) : Rat :=
  min (s.retry_base_delay * 2 ^ (n - 1)) s.retry_max_delay

/-- `_mark_delivered`: `$set status=DELIVERED, delivered_at=now` and
`$push delivery_attempts: attempt`. No other field is touched. -/
def mark_delivered (e : WebhookEvent) (attempt : DeliveryAttempt) (now : Rat) : WebhookEvent :=
  { e with status := .DELIVERED,
           delivered_at := some now,
           delivery_attempts := e.delivery_attempts ++ [attempt] }

/-- `_mark_failed_permanently`: `$set status=FAILED_PERMANENTLY, failed_at=now`
and `$push delivery_attempts: attempt`. No other field is touched. -/
def mark_failed_permanently (e : WebhookEvent) (attempt : DeliveryAttempt) (now : Rat) : WebhookEvent :=
  { e with status := .FAILED_PERMANENTLY,
           failed_at := some now,
           delivery_attempts := e.delivery_attempts ++ [attempt] }

/-- `_schedule_retry`: `$set next_retry_at = now + delay(attempt_number)` and,
when an attempt is supplied, `$push` it. Status and version are untouched. -/
def schedule_retry (s : Settings) (e : WebhookEvent) (attempt_number : Nat)
    (attempt : Option DeliveryAttempt) (now : Rat) : WebhookEvent :=
  { e with next_retry_at := some (now + backoff_delay s attempt_number),
           delivery_attempts := e.delivery_attempts ++ attempt.toList }

/-- `_handle_failure`: permanent failure once
`attempt_number >= max_retry_attempts`, otherwise a scheduled retry with the
attempt appended. -/
def handle_failure (s : Settings) (e : WebhookEvent) (attempt : DeliveryAttempt)
    (attempt_number : Nat) (now : Rat) : WebhookEvent :=
  if attempt_number ≥ s.max_retry_attempts then
    mark_failed_permanently e attempt now
  else
    schedule_retry s e attempt_number (some attempt) now

/-- Outcome of the downstream HTTP call in `_deliver_event`. -/
inductive DeliveryOutcome where
  | httpResponse : Nat → DeliveryOutcome
  | httpTimeout : DeliveryOutcome
  | transportError : String → DeliveryOutcome

/-- `_deliver_event`, as a function of the circuit breaker's answer and the
HTTP outcome: `attempt_number := len(delivery_attempts) + 1`; when the
breaker denies, `_schedule_retry` with no attempt; otherwise classify the
outcome (200 → `_mark_delivered`; anything else → `_handle_failure` with the
matching error message). `dur` is the measured duration in milliseconds. -/
def deliver_event (s : Settings) (can_exec : Bool) (outcome : DeliveryOutcome)
    (e : WebhookEvent) (now : Rat) (dur : Rat) : WebhookEvent :=
  let attempt_number := e.delivery_attempts.length + 1
  if !can_exec then
    schedule_retry s e attempt_number none now
  else
    match outcome with
    | .httpResponse code =>
      if code = 200 then
        mark_delivered e
          { timestamp := now, attempt_number := attempt_number,
            status_code := some 200, success := true, duration_ms := some dur } now
      else
        handle_failure s e
          { timestamp := now, attempt_number := attempt_number,
            status_code := some code, success := false,
            error_message := some ("HTTP " ++ toString code),
            duration_ms := some dur } attempt_number now
    | .httpTimeout =>
      handle_failure s e
        { timestamp := now, attempt_number := attempt_number,
          success := false, error_message := some "Timeout",
          duration_ms := some dur } attempt_number now
    | .transportError msg =>
      handle_failure s e
        { timestamp := now, attempt_number := attempt_number,
          success := false, error_message := some msg,
          duration_ms := some dur } attempt_number now

/-- A run of consecutive circuit-breaker rejections of the same event, at the
given sequence of claim times (the HTTP outcome argument is irrelevant on the
rejection path). -/
def reject_deliveries (s : Settings) (e : WebhookEvent) (times : List Rat) : WebhookEvent :=
  times.foldl (fun ev t => deliver_event s false .httpTimeout ev t 0) e

/-- A run of consecutive failing deliveries (downstream always returns 500)
with the circuit breaker permitting each call. -/
def fail_step (s : Settings) (now : Rat) (e : WebhookEvent) : WebhookEvent :=
  deliver_event s true (.httpResponse 500) e now 0

/-- Iterate `fail_step` a given number of times. -/
def fail_iter (s : Settings) (now : Rat) : Nat → WebhookEvent → WebhookEvent
  | 0, e => e
  | n + 1, e => fail_iter s now n (fail_step s now e)

/-- Errors raised by `validate_signature` (`hmac_validator.py`). -/
inductive HMACError where
  | missingSignature
  | invalidSignature
deriving DecidableEq

/-- The `str(e)` carried by each `HMACValidationError`. -/
def hmac_error_message : HMACError → String
  | .missingSignature => "Missing X-Signature header"
  | .invalidSignature => "Invalid signature"

/-- `validate_signature(payload, signature)`: `if not signature` (Python —
both `None` and the empty string are falsy) raise the missing-signature
error; then compare the supplied value against the hex HMAC-SHA256 digest of
the payload (`digest`, a parameter standing for the hmac library under the
configured secret); mismatch raises the invalid-signature error; otherwise
return `True`. -/
def validate_signature (digest : List Nat → String) (payload : List Nat)
    (signature : Option String) : Except HMACError Bool :=
  match signature with
  | none => .error .missingSignature
  | some s =>
    if s = "" then .error .missingSignature
    else if s = digest payload then .ok true
    else .error .invalidSignature

/-- The observable outcome of `POST /webhooks/ingest`, with the HTTP status
implied by each constructor (FastAPI returns 422 for a missing required
header, the route raises 401/400, and a normal return is 200). -/
inductive IngestResult where
  | validationError
  | unauthorized : String → IngestResult
  | badRequest : String → IngestResult
  | accepted : Option String → WebhookStatus → Rat → String → IngestResult

/-- HTTP status code of an ingest outcome. -/
def ingest_status_code : IngestResult → Nat
  | .validationError => 422
  | .unauthorized _ => 401
  | .badRequest _ => 400
  | .accepted _ _ _ _ => 200

/-- An ingest request: raw body bytes and the two headers, `none` meaning the
header is absent. -/
structure IngestRequest where
  body : List Nat
  x_signature : Option String
  x_idempotency_key : Option String

/-- `ingest_webhook` (`routes/webhooks.py`), with FastAPI's handling of the
required `X-Signature` header (absent → 422 validation error before the
handler body runs). `digest` stands for hex HMAC-SHA256 under the configured
secret; `parse` for `request.json()` (`none` = invalid JSON); `new_id` for
the ObjectId `insert_one` assigns. Returns the response and the collection
after the call. -/
def ingest (digest : List Nat → String) (parse : List Nat → Option (List (String × JVal)))
    (store : List WebhookEvent) (req : IngestRequest) (now : Rat) (new_id : String) :
    IngestResult × List WebhookEvent :=
  match req.x_signature with
  | none => (.validationError, store)
  | some sig =>
    match validate_signature digest req.body (some sig) with
    | .error err => (.unauthorized (hmac_error_message err), store)
    | .ok _ =>
      match parse req.body with
      | none => (.badRequest "Invalid JSON payload", store)
      | some payload =>
        let dup : Option WebhookEvent :=
          match req.x_idempotency_key with
          | some k => if k = "" then none else find_by_idempotency_key store k
          | none => none
        match dup with
        | some existing =>
          (.accepted existing.id existing.status existing.received_at
            "Duplicate event (idempotency key exists)", store)
        | none =>
          let e : WebhookEvent :=
            { id := some new_id, payload := payload, status := .RECEIVED,
              received_at := now, event_type := extract_event_type payload }
          (.accepted (some new_id) .RECEIVED now "Webhook received successfully",
           insert_event store e)

/-- Circuit breaker states (`CircuitState`). -/
inductive CircuitState where
  | CLOSED
  | OPEN
  | HALF_OPEN
deriving DecidableEq

/-- Circuit breaker parameters, defaults as in the source constructor. -/
structure CBSettings where
  failure_threshold : Nat := 5
  recovery_timeout : Rat := 30
  half_open_requests : Nat := 3

/-- Mutable circuit breaker state (`CircuitBreaker.__init__`). -/
structure CBState where
  state : CircuitState := .CLOSED
  failure_count : Nat := 0
  success_count : Nat := 0
  last_failure_time : Option Rat := none
deriving DecidableEq

/-- The initial circuit breaker state. -/
def initial_cb_state : CBState := {}

/-- `can_execute` at instant `now`: result and post-state. CLOSED → true;
OPEN → if a last failure time is recorded and `now - t > recovery_timeout`,
move to HALF_OPEN with `success_count := 0` and return true, else false;
HALF_OPEN → true. -/
def can_execute (cb : CBSettings) (st : CBState) (now : Rat) : Bool × CBState :=
  match st.state with
  | .CLOSED => (true, st)
  | .OPEN =>
    match st.last_failure_time with
    | some t =>
      if now - t > cb.recovery_timeout then
        (true, { st with state := .HALF_OPEN, success_count := 0 })
      else
        (false, st)
    | none => (false, st)
  | .HALF_OPEN => (true, st)

/-- `record_success`: in HALF_OPEN increment `success_count` and close the
circuit (resetting `failure_count`) once it reaches `half_open_requests`;
otherwise reset `failure_count`. -/
def record_success (cb : CBSettings) (st : CBState) : CBState :=
  match st.state with
  | .HALF_OPEN =>
    let sc := st.success_count + 1
    if sc ≥ cb.half_open_requests then
      { st with state := .CLOSED, failure_count := 0, success_count := sc }
    else
      { st with success_count := sc }
  | _ => { st with failure_count := 0 }

/-- `record_failure` at instant `now`: increment `failure_count` and set
`last_failure_time := now` first; then HALF_OPEN → OPEN, and CLOSED → OPEN
when the count reaches the threshold. -/
def record_failure (cb : CBSettings) (st : CBState) (now : Rat) : CBState :=
  let st1 := { st with failure_count := st.failure_count + 1,
                       last_failure_time := some now }
  match st1.state with
  | .HALF_OPEN => { st1 with state := .OPEN }
  | .CLOSED =>
    if st1.failure_count ≥ cb.failure_threshold then { st1 with state := .OPEN }
    else st1
  | .OPEN => st1

/-- One circuit breaker operation, tagged with the wall-clock instant where
the source reads the clock. -/
inductive CBOp where
  | canExec : Rat → CBOp
  | recSuccess : CBOp
  | recFailure : Rat → CBOp

/-- State transition of one operation (`can_execute` is the only operation
whose result is read; only its post-state matters for the invariant). -/
def cb_step (cb : CBSettings) (st : CBState) : CBOp → CBState
  | .canExec now => (can_execute cb st now).2
  | .recSuccess => record_success cb st
  | .recFailure now => record_failure cb st now

/-- Run a sequence of operations from the initial state. -/
def cb_run (cb : CBSettings) (ops : List CBOp) : CBState :=
  ops.foldl (cb_step cb) initial_cb_state

/-- A concrete attempt used in closed evaluations. -/
def sample_attempt : DeliveryAttempt :=
  { timestamp := 20, attempt_number := 2, status_code := some 200, success := true }

/-- A concrete failing attempt used in closed evaluations. -/
def fail_att : DeliveryAttempt :=
  { timestamp := 0, attempt_number := 1, success := false }

/-- A concrete PROCESSING event awaiting a retry, used in closed evaluations. -/
def sample_event : WebhookEvent :=
  { payload := [], status := .PROCESSING, received_at := 0, version := 3,
    next_retry_at := some 10,
    delivery_attempts := [{ timestamp := 1, attempt_number := 1, status_code := some 500,
                            success := false, error_message := some "HTTP 500" }] }

/-- A concrete freshly ingested event, used in closed evaluations. -/
def sample_received : WebhookEvent :=
  { payload := [], status := .RECEIVED, received_at := 0 }

/-- C1, counterexample: on a PROCESSING event with `next_retry_at = 10` and
`version = 3`, `_mark_delivered` leaves `next_retry_at = some 10` (not null)
and `version = 3` (not incremented), and `_mark_failed_permanently` does the
same, contradicting the claimed clearing of `next_retry_at` and version bump. -/
theorem c1_counterexample :
    (mark_delivered sample_event sample_attempt 20).status = .DELIVERED ∧
    (mark_delivered sample_event sample_attempt 20).next_retry_at = some 10 ∧
    (mark_delivered sample_event sample_attempt 20).version = 3 ∧
    (mark_failed_permanently sample_event sample_attempt 20).status = .FAILED_PERMANENTLY ∧
    (mark_failed_permanently sample_event sample_attempt 20).next_retry_at = some 10 ∧
    (mark_failed_permanently sample_event sample_attempt 20).version = 3 :=
  ⟨rfl, rfl, rfl, rfl, rfl, rfl⟩

/-- C1, amended: `_mark_delivered` appends the attempt, sets status DELIVERED
and `delivered_at = now`, and leaves `next_retry_at` and `version` unchanged;
`_mark_failed_permanently` likewise with status FAILED_PERMANENTLY and
`failed_at`. Terminal events therefore have non-empty `delivery_attempts`,
but retain whatever `next_retry_at` they had. -/
theorem c1_mark_terminal_effects (e : WebhookEvent) (a : DeliveryAttempt) (now : Rat) :
    (mark_delivered e a now).status = .DELIVERED ∧
    (mark_delivered e a now).delivery_attempts = e.delivery_attempts ++ [a] ∧
    (mark_delivered e a now).delivered_at = some now ∧
    (mark_delivered e a now).next_retry_at = e.next_retry_at ∧
    (mark_delivered e a now).version = e.version ∧
    (mark_delivered e a now).delivery_attempts ≠ [] ∧
    (mark_failed_permanently e a now).status = .FAILED_PERMANENTLY ∧
    (mark_failed_permanently e a now).delivery_attempts = e.delivery_attempts ++ [a] ∧
    (mark_failed_permanently e a now).failed_at = some now ∧
    (mark_failed_permanently e a now).next_retry_at = e.next_retry_at ∧
    (mark_failed_permanently e a now).version = e.version ∧
    (mark_failed_permanently e a now).delivery_attempts ≠ [] :=
  ⟨rfl, rfl, rfl, rfl, rfl, by simp [mark_delivered],
   rfl, rfl, rfl, rfl, rfl, by simp [mark_failed_permanently]⟩

/-- C10: `validate_signature` treats `None` and the empty string alike (both
raise the missing-signature error, never the mismatch error), and whenever it
returns normally it returns `True`. -/
theorem c10_validate_signature_spec (digest : List Nat → String) (payload : List Nat) :
    validate_signature digest payload none = .error .missingSignature ∧
    validate_signature digest payload (some "") = .error .missingSignature ∧
    hmac_error_message .missingSignature = "Missing X-Signature header" ∧
    (∀ sig b, validate_signature digest payload sig = .ok b → b = true) := by
  refine ⟨rfl, by simp [validate_signature], rfl, ?_⟩
  intro sig b h
  cases sig with
  | none => simp [validate_signature] at h
  | some s =>
    simp only [validate_signature] at h
    split_ifs at h with h1 h2
    injection h with h3
    exact h3.symm

/-- C10, witness: concrete evaluation of the missing-signature branch and of
the normal-return conjunct at a matching digest. -/
theorem c10_witness :
    validate_signature (fun _ => "d") [] none = .error .missingSignature ∧ true = true :=
  ⟨(c10_validate_signature_spec (fun _ => "d") []).1,
   (c10_validate_signature_spec (fun _ => "d") []).2.2.2 (some "d") true rfl⟩

/-- Python's left-to-right `or` over three optional values equals: first
truthy value if any, else the last operand. -/
theorem pyOr_find_eq (a b c : Option JVal) :
    pyOr (pyOr a b) c =
      (match [a, b, c].find? optTruthy with
       | some v => v
       | none => c) := by
  by_cases ha : optTruthy a <;> by_cases hb : optTruthy b <;> by_cases hc : optTruthy c <;>
    rcases a with _ | va <;> rcases b with _ | vb <;>
      simp_all [pyOr, optTruthy, List.find?]

/-- C8, counterexample: for the payload `{"event_type": "", "type": "x"}`,
the source's extraction yields `"x"` (truthiness decides), while the
first-key-present rule of the claim yields `""`. -/
theorem c8_counterexample :
    extract_event_type [("event_type", .jstr ""), ("type", .jstr "x")] = some (.jstr "x") ∧
    spec_first_present_event_type [("event_type", .jstr ""), ("type", .jstr "x")] = some (.jstr "") ∧
    extract_event_type [("event_type", .jstr ""), ("type", .jstr "x")] ≠
      spec_first_present_event_type [("event_type", .jstr ""), ("type", .jstr "x")] := by
  refine ⟨rfl, rfl, ?_⟩
  intro h
  rw [show extract_event_type [("event_type", .jstr ""), ("type", .jstr "x")] = some (.jstr "x") from rfl,
      show spec_first_present_event_type [("event_type", .jstr ""), ("type", .jstr "x")] = some (.jstr "") from rfl] at h
  injection h with h1
  injection h1 with h2
  exact (by decide : ("x" : String) ≠ "") h2

/-- C8, amended: the stored `event_type` is the first *truthy* value among
the payload keys `event_type`, `type`, `event` in that order, defaulting to
`payload.get("event")` (hence null when that key is absent or null) when
none is truthy. -/
theorem c8_extract_amended (payload : List (String × JVal)) :
    extract_event_type payload = amended_event_type payload := by
  unfold extract_event_type amended_event_type
  exact pyOr_find_eq _ _ _

/-- A digest function used in closed ingest evaluations. -/
def c2_digest : List Nat → String := fun _ => "sig"

/-- A JSON parser used in closed ingest evaluations. -/
def c2_parse : List Nat → Option (List (String × JVal)) := fun _ => some [("a", JVal.jnum 1)]

/-- A correctly signed ingest request carrying idempotency key `K`. -/
def c2_request : IngestRequest :=
  { body := [], x_signature := some "sig", x_idempotency_key := some "K" }

/-- C2, failing run: two sequential ingests with the same idempotency key
`K` both persist a record — the persisted documents carry no idempotency
key (the pydantic model drops the field), so the duplicate lookup never
matches, the second ingest gets a fresh id, and afterwards the collection
holds two records; no `DuplicateIdempotencyKey` error exists anywhere on
this path. -/
theorem c2_failing_run :
    (ingest c2_digest c2_parse [] c2_request 0 "id1").1 =
      .accepted (some "id1") .RECEIVED 0 "Webhook received successfully" ∧
    (ingest c2_digest c2_parse (ingest c2_digest c2_parse [] c2_request 0 "id1").2
        c2_request 1 "id2").1 =
      .accepted (some "id2") .RECEIVED 1 "Webhook received successfully" ∧
    (ingest c2_digest c2_parse (ingest c2_digest c2_parse [] c2_request 0 "id1").2
        c2_request 1 "id2").2.length = 2 ∧
    (∀ (store : List WebhookEvent) (k : String), find_by_idempotency_key store k = none) ∧
    (∀ (store : List WebhookEvent) (e : WebhookEvent),
      insert_event store e = store ++ [e]) := by
  refine ⟨rfl, rfl, rfl, ?_, fun _ _ => rfl⟩
  intro store k
  induction store with
  | nil => rfl
  | cons e rest ih => simp [find_by_idempotency_key, doc_idempotency_key]

/-- C7, amended: an absent `X-Signature` header is rejected by FastAPI's
required-header validation with 422 before the handler runs; an empty-string
or mismatched signature yields 401; in every one of these cases the store is
unchanged, and the signature check precedes JSON parsing (the statements hold
for every `parse`, including one that fails on the body). -/
theorem c7_signature_gate (digest : List Nat → String)
    (parse : List Nat → Option (List (String × JVal)))
    (store : List WebhookEvent) (req : IngestRequest) (now : Rat) (new_id : String) :
    (req.x_signature = none →
      ingest digest parse store req now new_id = (.validationError, store) ∧
      ingest_status_code (ingest digest parse store req now new_id).1 = 422) ∧
    (req.x_signature = some "" →
      ingest digest parse store req now new_id =
        (.unauthorized "Missing X-Signature header", store) ∧
      ingest_status_code (ingest digest parse store req now new_id).1 = 401) ∧
    (∀ s, req.x_signature = some s → s ≠ "" → s ≠ digest req.body →
      ingest digest parse store req now new_id =
        (.unauthorized "Invalid signature", store) ∧
      ingest_status_code (ingest digest parse store req now new_id).1 = 401) := by
  refine ⟨fun h => ?_, fun h => ?_, fun s h hne hmm => ?_⟩
  · rw [show ingest digest parse store req now new_id = (.validationError, store) by
      unfold ingest; rw [h]]
    exact ⟨rfl, rfl⟩
  · rw [show ingest digest parse store req now new_id =
        (.unauthorized "Missing X-Signature header", store) by
      unfold ingest; rw [h]; simp [validate_signature, hmac_error_message]]
    exact ⟨rfl, rfl⟩
  · rw [show ingest digest parse store req now new_id =
        (.unauthorized "Invalid signature", store) by
      unfold ingest; rw [h]; simp [validate_signature, hmac_error_message, hne, hmm]]
    exact ⟨rfl, rfl⟩

/-- C7, counterexample: a request with no `X-Signature` header at all is
answered with 422 (FastAPI required-header validation), not the claimed 401;
nothing is persisted. -/
theorem c7_counterexample :
    ingest_status_code
      (ingest (fun _ => "h") (fun _ => some [])
        [] { body := [], x_signature := none, x_idempotency_key := none } 0 "id").1 = 422 ∧
    (422 : Nat) ≠ 401 ∧
    (ingest (fun _ => "h") (fun _ => some [])
      [] { body := [], x_signature := none, x_idempotency_key := none } 0 "id").2 = [] :=
  ⟨rfl, by decide, rfl⟩

/-- C7, witness: concrete mismatched-signature request gets 401 with the
store unchanged, for a parser that rejects the body (the check precedes
JSON parsing). -/
theorem c7_witness :
    ingest (fun _ => "good") (fun _ => none)
        [] { body := [], x_signature := some "bad", x_idempotency_key := none } 0 "id" =
      (.unauthorized "Invalid signature", []) ∧
    ingest_status_code
      (ingest (fun _ => "good") (fun _ => none)
        [] { body := [], x_signature := some "bad", x_idempotency_key := none } 0 "id").1 = 401 :=
  (c7_signature_gate (fun _ => "good") (fun _ => none)
    [] { body := [], x_signature := some "bad", x_idempotency_key := none } 0 "id").2.2
    "bad" rfl (by decide) (by decide)

/-- A claimable document is in status RECEIVED or PROCESSING — never in a
terminal status. -/
theorem claimable_status_cases (now : Rat) (e : WebhookEvent) (h : claimable now e = true) :
    e.status = .RECEIVED ∨ e.status = .PROCESSING := by
  cases hs : e.status with
  | RECEIVED => exact Or.inl rfl
  | PROCESSING => exact Or.inr rfl
  | DELIVERED =>
    unfold claimable at h
    rw [hs] at h
    cases hn : e.next_retry_at <;> rw [hn] at h <;> simp at h
  | FAILED_PERMANENTLY =>
    unfold claimable at h
    rw [hs] at h
    cases hn : e.next_retry_at <;> rw [hn] at h <;> simp at h

/-- C3: `claim_next` selects one document matching the RECEIVED-or-due-retry
filter, sets it PROCESSING with version incremented by exactly 1, returns the
post-update document, leaves every other document untouched, and returns
null exactly when no document matches; a terminal (DELIVERED or
FAILED_PERMANENTLY) document is never selected. -/
theorem c3_claim_next_spec (store : List WebhookEvent) (now : Rat) :
    ((claim_next store now).1 = none →
      (claim_next store now).2 = store ∧ ∀ e ∈ store, claimable now e = false) ∧
    (∀ ev, (claim_next store now).1 = some ev →
      ∃ pre l1 l2, store = l1 ++ pre :: l2 ∧
        claimable now pre = true ∧
        pre.status ≠ .DELIVERED ∧
        pre.status ≠ .FAILED_PERMANENTLY ∧
        ev = claim_update pre ∧
        ev.status = .PROCESSING ∧
        ev.version = pre.version + 1 ∧
        (claim_next store now).2 = l1 ++ ev :: l2) := by
  induction store with
  | nil =>
    refine ⟨fun _ => ⟨rfl, by simp⟩, fun ev h => ?_⟩
    simp [claim_next] at h
  | cons e rest ih =>
    by_cases hc : claimable now e
    · refine ⟨fun h => ?_, fun ev h => ?_⟩
      · simp [claim_next, hc] at h
      · have hev : ev = claim_update e := by
          simp [claim_next, hc] at h
          exact h.symm
        have hterm := claimable_status_cases now e hc
        refine ⟨e, [], rest, by simp, hc, ?_, ?_, hev, by rw [hev]; rfl,
                by rw [hev]; rfl, ?_⟩
        · rcases hterm with hs | hs <;> simp [hs]
        · rcases hterm with hs | hs <;> simp [hs]
        · simp [claim_next, hc, hev]
    · have hpair : claim_next (e :: rest) now =
          ((claim_next rest now).1, e :: (claim_next rest now).2) := by
        simp [claim_next, hc]
      refine ⟨fun h => ?_, fun ev h => ?_⟩
      · rw [hpair] at h ⊢
        simp only at h
        obtain ⟨h1, h2⟩ := ih.1 h
        refine ⟨by simp [h1], fun x hx => ?_⟩
        rcases List.mem_cons.mp hx with hx | hx
        · rw [hx]; exact Bool.not_eq_true _ ▸ (by simpa using hc)
        · exact h2 x hx
      · rw [hpair] at h
        simp only at h
        obtain ⟨pre, l1, l2, hsplit, hcl, ht1, ht2, hev, hst, hver, hrest⟩ := ih.2 ev h
        refine ⟨pre, e :: l1, l2, by simp [hsplit], hcl, ht1, ht2, hev, hst, hver, ?_⟩
        rw [hpair]
        simp [hrest]

/-- C3, witness: a concrete one-element store holding a RECEIVED event is
claimed, incrementing version 1 → 2 and setting PROCESSING. -/
theorem c3_witness :
    ∃ pre l1 l2, [sample_received] = l1 ++ pre :: l2 ∧
      claimable 0 pre = true ∧
      pre.status ≠ .DELIVERED ∧
      pre.status ≠ .FAILED_PERMANENTLY ∧
      claim_update sample_received = claim_update pre ∧
      (claim_update sample_received).status = .PROCESSING ∧
      (claim_update sample_received).version = pre.version + 1 ∧
      (claim_next [sample_received] 0).2 = l1 ++ claim_update sample_received :: l2 :=
  (c3_claim_next_spec [sample_received] 0).2 (claim_update sample_received) rfl

/-- Starting `k ≥ 1` failing deliveries short of the maximum, a run of
consecutive failures ends FAILED_PERMANENTLY with exactly
`max_retry_attempts` recorded attempts, the last one unsuccessful. -/
theorem fail_iter_all_failed (s : Settings) (now : Rat) :
    ∀ k (e : WebhookEvent), 1 ≤ k →
      e.delivery_attempts.length + k = s.max_retry_attempts →
      (fail_iter s now k e).status = .FAILED_PERMANENTLY ∧
      (fail_iter s now k e).delivery_attempts.length = s.max_retry_attempts ∧
      ∃ la, (fail_iter s now k e).delivery_attempts.getLast? = some la ∧
        la.success = false := by
  intro k
  induction k with
  | zero => intro e hk _; exact absurd hk (by omega)
  | succ k ih =>
    intro e _ hlen
    by_cases hk0 : k = 0
    · subst hk0
      have hge : e.delivery_attempts.length + 1 ≥ s.max_retry_attempts := by omega
      have hstep : fail_iter s now 1 e =
          mark_failed_permanently e
            { timestamp := now, attempt_number := e.delivery_attempts.length + 1,
              status_code := some 500, success := false,
              error_message := some ("HTTP " ++ toString 500),
              duration_ms := some 0 } now := by
        show fail_step s now e = _
        simp [fail_step, deliver_event, handle_failure, hge]
      rw [hstep]
      refine ⟨rfl, ?_, ?_⟩
      · simp [mark_failed_permanently]
        omega
      · refine ⟨{ timestamp := now, attempt_number := e.delivery_attempts.length + 1,
                  status_code := some 500, success := false,
                  error_message := some ("HTTP " ++ toString 500),
                  duration_ms := some 0 }, ?_, rfl⟩
        simp [mark_failed_permanently, List.getLast?_append_cons]
    · have hlt : ¬ (e.delivery_attempts.length + 1 ≥ s.max_retry_attempts) := by omega
      have hstep : fail_step s now e =
          schedule_retry s e (e.delivery_attempts.length + 1)
            (some { timestamp := now, attempt_number := e.delivery_attempts.length + 1,
                    status_code := some 500, success := false,
                    error_message := some ("HTTP " ++ toString 500),
                    duration_ms := some 0 }) now := by
        simp [fail_step, deliver_event, handle_failure, hlt]
      have hlen2 : (fail_step s now e).delivery_attempts.length + k = s.max_retry_attempts := by
        rw [hstep]
        simp [schedule_retry]
        omega
      have := ih (fail_step s now e) (by omega) hlen2
      exact this

/-- C4: on failure with `attempt_number = len(delivery_attempts) + 1`, when
`attempt_number ≥ max_retry_attempts` the event is marked FAILED_PERMANENTLY
with the failing attempt appended (giving exactly `max_retry_attempts`
attempts on a run that starts empty, the last unsuccessful); otherwise the
attempt is appended and `next_retry_at := now + delay(attempt_number)` with
`delay(n) = min(retry_base_delay * 2^(n-1), retry_max_delay)` — 1, 2, 4, 8,
16 seconds under the defaults, never exceeding `retry_max_delay`. -/
theorem c4_retry_policy (s : Settings) (e : WebhookEvent) (a : DeliveryAttempt)
    (now : Rat) (n : Nat) (hn : n = e.delivery_attempts.length + 1)
    (ha : a.success = false) :
    (n ≥ s.max_retry_attempts →
      handle_failure s e a n now = mark_failed_permanently e a now ∧
      (handle_failure s e a n now).status = .FAILED_PERMANENTLY ∧
      (handle_failure s e a n now).delivery_attempts = e.delivery_attempts ++ [a] ∧
      (handle_failure s e a n now).delivery_attempts.length = n ∧
      (∃ la, (handle_failure s e a n now).delivery_attempts.getLast? = some la ∧
        la.success = false)) ∧
    (n < s.max_retry_attempts →
      (handle_failure s e a n now).status = e.status ∧
      (handle_failure s e a n now).delivery_attempts = e.delivery_attempts ++ [a] ∧
      (handle_failure s e a n now).next_retry_at = some (now + backoff_delay s n)) ∧
    (1 ≤ s.max_retry_attempts → e.delivery_attempts = [] →
      (fail_iter s now s.max_retry_attempts e).status = .FAILED_PERMANENTLY ∧
      (fail_iter s now s.max_retry_attempts e).delivery_attempts.length =
        s.max_retry_attempts ∧
      ∃ la, (fail_iter s now s.max_retry_attempts e).delivery_attempts.getLast? = some la ∧
        la.success = false) ∧
    backoff_delay default_settings 1 = 1 ∧
    backoff_delay default_settings 2 = 2 ∧
    backoff_delay default_settings 3 = 4 ∧
    backoff_delay default_settings 4 = 8 ∧
    backoff_delay default_settings 5 = 16 ∧
    (∀ m, backoff_delay s m ≤ s.retry_max_delay) := by
  refine ⟨fun hge => ?_, fun hlt => ?_, fun hmax hempty => ?_, ?_, ?_, ?_, ?_, ?_,
    fun m => min_le_right _ _⟩
  · have h1 : handle_failure s e a n now = mark_failed_permanently e a now := by
      simp [handle_failure, hge]
    refine ⟨h1, by rw [h1]; rfl, by rw [h1]; rfl, ?_, ?_⟩
    · rw [h1]
      simp [mark_failed_permanently]
      omega
    · refine ⟨a, ?_, ha⟩
      rw [h1]
      simp [mark_failed_permanently, List.getLast?_append_cons]
  · have h1 : handle_failure s e a n now =
        schedule_retry s e n (some a) now := by
      simp [handle_failure, (show ¬ n ≥ s.max_retry_attempts by omega)]
    exact ⟨by rw [h1]; rfl, by rw [h1]; simp [schedule_retry], by rw [h1]; rfl⟩
  · exact fail_iter_all_failed s now s.max_retry_attempts e hmax (by simp [hempty])
  · norm_num [backoff_delay, default_settings]
  · norm_num [backoff_delay, default_settings]
  · norm_num [backoff_delay, default_settings]
  · norm_num [backoff_delay, default_settings]
  · norm_num [backoff_delay, default_settings]

/-- C4, witness: concrete run — a first failing attempt on a fresh event is
rescheduled with delay 1s; a full run of five failures ends permanently
failed with five attempts. -/
theorem c4_witness :
    ((1 : Nat) < default_settings.max_retry_attempts →
      (handle_failure default_settings sample_received fail_att 1 0).status =
        sample_received.status ∧
      (handle_failure default_settings sample_received fail_att 1 0).delivery_attempts =
        sample_received.delivery_attempts ++ [fail_att] ∧
      (handle_failure default_settings sample_received fail_att 1 0).next_retry_at =
        some (0 + backoff_delay default_settings 1)) ∧
    (1 ≤ default_settings.max_retry_attempts → sample_received.delivery_attempts = [] →
      (fail_iter default_settings 0 default_settings.max_retry_attempts
        sample_received).status = .FAILED_PERMANENTLY ∧
      (fail_iter default_settings 0 default_settings.max_retry_attempts
        sample_received).delivery_attempts.length = default_settings.max_retry_attempts ∧
      ∃ la, (fail_iter default_settings 0 default_settings.max_retry_attempts
        sample_received).delivery_attempts.getLast? = some la ∧ la.success = false) :=
  ⟨(c4_retry_policy default_settings sample_received fail_att 0 1 rfl rfl).2.1,
   (c4_retry_policy default_settings sample_received fail_att 0 1 rfl rfl).2.2.1⟩

/-- A circuit-breaker rejection never changes the attempt list or the
status, however many rejections happen in a row. -/
theorem reject_deliveries_preserves (s : Settings) :
    ∀ (ts : List Rat) (e : WebhookEvent),
      (reject_deliveries s e ts).delivery_attempts = e.delivery_attempts ∧
      (reject_deliveries s e ts).status = e.status := by
  intro ts
  induction ts with
  | nil => intro e; exact ⟨rfl, rfl⟩
  | cons t ts ih =>
    intro e
    have hstep :
        (deliver_event s false .httpTimeout e t 0).delivery_attempts = e.delivery_attempts ∧
        (deliver_event s false .httpTimeout e t 0).status = e.status := by
      constructor <;> simp [deliver_event, schedule_retry]
    have hc : reject_deliveries s e (t :: ts) =
        reject_deliveries s (deliver_event s false .httpTimeout e t 0) ts := rfl
    obtain ⟨h1, h2⟩ := ih (deliver_event s false .httpTimeout e t 0)
    exact ⟨by rw [hc, h1, hstep.1], by rw [hc, h2, hstep.2]⟩

/-- C6: when `can_execute()` is false, `_deliver_event` is exactly
`_schedule_retry` with no attempt appended — attempts, status and version
are unchanged and `next_retry_at := now + delay(len+1)` — and any number of
consecutive rejections of an event with no recorded attempts keeps its
attempt list empty, so each rejection reschedules with the same constant
`delay(1)`, and no terminal transition occurs. -/
theorem c6_circuit_open_reject (s : Settings) (o : DeliveryOutcome)
    (e : WebhookEvent) (now dur : Rat) :
    deliver_event s false o e now dur =
      schedule_retry s e (e.delivery_attempts.length + 1) none now ∧
    (deliver_event s false o e now dur).delivery_attempts = e.delivery_attempts ∧
    (deliver_event s false o e now dur).status = e.status ∧
    (deliver_event s false o e now dur).version = e.version ∧
    (deliver_event s false o e now dur).next_retry_at =
      some (now + backoff_delay s (e.delivery_attempts.length + 1)) ∧
    (∀ ts, (reject_deliveries s e ts).delivery_attempts = e.delivery_attempts ∧
      (reject_deliveries s e ts).status = e.status) ∧
    (e.delivery_attempts = [] → ∀ ts t,
      (deliver_event s false o (reject_deliveries s e ts) t dur).next_retry_at =
        some (t + backoff_delay s 1)) := by
  refine ⟨by simp [deliver_event], by simp [deliver_event, schedule_retry],
    by simp [deliver_event, schedule_retry], by simp [deliver_event, schedule_retry],
    by simp [deliver_event, schedule_retry], fun ts => reject_deliveries_preserves s ts e, ?_⟩
  intro hempty ts t
  have hlen : (reject_deliveries s e ts).delivery_attempts = [] :=
    (reject_deliveries_preserves s ts e).1.trans hempty
  simp [deliver_event, schedule_retry, hlen]

/-- C6, witness: a concrete rejected delivery of a fresh event after two
earlier rejections is rescheduled with `delay(1)` and no appended attempt. -/
theorem c6_witness :
    (deliver_event default_settings false .httpTimeout
        (reject_deliveries default_settings sample_received [0, 1]) 2 0).next_retry_at =
      some (2 + backoff_delay default_settings 1) :=
  (c6_circuit_open_reject default_settings .httpTimeout sample_received 0 0).2.2.2.2.2.2
    rfl [0, 1] 2

/-- The default circuit breaker parameters. -/
def default_cb_settings : CBSettings := {}

/-- C5: in OPEN state with a recorded last failure at `t`, `can_execute`
returns false and changes nothing while `now - t ≤ recovery_timeout`; once
`now - t > recovery_timeout` it returns true, moves to HALF_OPEN and resets
`success_count` to 0 (leaving `failure_count` and `last_failure_time`
untouched). -/
theorem c5_open_can_execute (cb : CBSettings) (st : CBState) (now t : Rat)
    (hs : st.state = .OPEN) (hl : st.last_failure_time = some t) :
    (now - t ≤ cb.recovery_timeout →
      can_execute cb st now = (false, st)) ∧
    (now - t > cb.recovery_timeout →
      (can_execute cb st now).1 = true ∧
      (can_execute cb st now).2.state = .HALF_OPEN ∧
      (can_execute cb st now).2.success_count = 0 ∧
      (can_execute cb st now).2.failure_count = st.failure_count ∧
      (can_execute cb st now).2.last_failure_time = st.last_failure_time) := by
  have hfun : can_execute cb st now =
      if now - t > cb.recovery_timeout then
        (true, { st with state := .HALF_OPEN, success_count := 0 })
      else (false, st) := by
    unfold can_execute
    rw [hs, hl]
  constructor
  · intro h
    rw [hfun, if_neg (not_lt.mpr h)]
  · intro h
    rw [hfun, if_pos h]
    exact ⟨rfl, rfl, rfl, rfl, rfl⟩

/-- C5, witness: concrete OPEN state with last failure at 0 — at `now = 10`
(within the 30 s timeout) execution is denied and the state unchanged; at
`now = 100` it is granted with a transition to HALF_OPEN. -/
theorem c5_witness :
    (can_execute default_cb_settings
      { state := .OPEN, failure_count := 5, success_count := 0,
        last_failure_time := some 0 } 10 =
      (false, { state := .OPEN, failure_count := 5, success_count := 0,
                last_failure_time := some 0 })) ∧
    ((can_execute default_cb_settings
      { state := .OPEN, failure_count := 5, success_count := 0,
        last_failure_time := some 0 } 100).1 = true ∧
     (can_execute default_cb_settings
      { state := .OPEN, failure_count := 5, success_count := 0,
        last_failure_time := some 0 } 100).2.state = .HALF_OPEN ∧
     (can_execute default_cb_settings
      { state := .OPEN, failure_count := 5, success_count := 0,
        last_failure_time := some 0 } 100).2.success_count = 0 ∧
     (can_execute default_cb_settings
      { state := .OPEN, failure_count := 5, success_count := 0,
        last_failure_time := some 0 } 100).2.failure_count = 5 ∧
     (can_execute default_cb_settings
      { state := .OPEN, failure_count := 5, success_count := 0,
        last_failure_time := some 0 } 100).2.last_failure_time = some 0) :=
  ⟨(c5_open_can_execute default_cb_settings
      { state := .OPEN, failure_count := 5, success_count := 0,
        last_failure_time := some 0 } 10 0 rfl rfl).1 (by norm_num [default_cb_settings]),
   (c5_open_can_execute default_cb_settings
      { state := .OPEN, failure_count := 5, success_count := 0,
        last_failure_time := some 0 } 100 0 rfl rfl).2 (by norm_num [default_cb_settings])⟩

/-- One circuit breaker operation preserves "OPEN implies a recorded last
failure time": `record_failure` records the time before any state change,
and no operation ever clears `last_failure_time`. -/
theorem cb_step_open_lft (cb : CBSettings) (st : CBState)
    (h : st.state = .OPEN → st.last_failure_time ≠ none) (op : CBOp) :
    (cb_step cb st op).state = .OPEN → (cb_step cb st op).last_failure_time ≠ none := by
  cases op with
  | canExec now =>
    cases hs : st.state with
    | CLOSED =>
      have hid : cb_step cb st (.canExec now) = st := by
        simp [cb_step, can_execute, hs]
      rw [hid]
      exact h
    | OPEN =>
      cases hl : st.last_failure_time with
      | none =>
        have hid : cb_step cb st (.canExec now) = st := by
          simp [cb_step, can_execute, hs, hl]
        rw [hid]
        exact h
      | some t =>
        by_cases hgt : now - t > cb.recovery_timeout
        · have hid : cb_step cb st (.canExec now) =
              { st with state := .HALF_OPEN, success_count := 0 } := by
            simp [cb_step, can_execute, hs, hl, hgt]
          rw [hid]
          intro hcontra
          exact absurd hcontra (by simp)
        · have hid : cb_step cb st (.canExec now) = st := by
            simp [cb_step, can_execute, hs, hl, hgt]
          rw [hid]
          intro _
          rw [hl]
          simp
    | HALF_OPEN =>
      have hid : cb_step cb st (.canExec now) = st := by
        simp [cb_step, can_execute, hs]
      rw [hid]
      exact h
  | recSuccess =>
    cases hs : st.state with
    | CLOSED =>
      have hid : cb_step cb st .recSuccess = { st with failure_count := 0 } := by
        simp [cb_step, record_success, hs]
      rw [hid]
      intro hop
      exact h hop
    | OPEN =>
      have hid : cb_step cb st .recSuccess = { st with failure_count := 0 } := by
        simp [cb_step, record_success, hs]
      rw [hid]
      intro _
      exact h hs
    | HALF_OPEN =>
      by_cases hsc : st.success_count + 1 ≥ cb.half_open_requests
      · have hid : cb_step cb st .recSuccess =
            { st with state := .CLOSED, failure_count := 0,
                      success_count := st.success_count + 1 } := by
          simp [cb_step, record_success, hs, hsc]
        rw [hid]
        intro hcontra
        exact absurd hcontra (by simp)
      · have hid : cb_step cb st .recSuccess =
            { st with success_count := st.success_count + 1 } := by
          simp [cb_step, record_success, hs, hsc]
        rw [hid]
        intro hcontra
        exact absurd (hs ▸ hcontra) (by simp)
  | recFailure now =>
    have hlft : (cb_step cb st (.recFailure now)).last_failure_time = some now := by
      cases hs : st.state with
      | CLOSED =>
        by_cases hth : st.failure_count + 1 ≥ cb.failure_threshold <;>
          simp [cb_step, record_failure, hs, hth]
      | OPEN => simp [cb_step, record_failure, hs]
      | HALF_OPEN => simp [cb_step, record_failure, hs]
    intro _
    rw [hlft]
    simp

/-- C9: whenever a reachable circuit breaker state is OPEN, its
`last_failure_time` is recorded, so the recovery-timeout comparison is
reachable: at any instant past the timeout, `can_execute` returns true. -/
theorem c9_open_has_failure_time (cb : CBSettings) (ops : List CBOp)
    (ho : (cb_run cb ops).state = .OPEN) :
    (cb_run cb ops).last_failure_time ≠ none ∧
    ∃ t, (cb_run cb ops).last_failure_time = some t ∧
      ∀ now, now - t > cb.recovery_timeout →
        (can_execute cb (cb_run cb ops) now).1 = true := by
  have hinv : ∀ (l : List CBOp) (st : CBState),
      (st.state = .OPEN → st.last_failure_time ≠ none) →
      (l.foldl (cb_step cb) st).state = .OPEN →
      (l.foldl (cb_step cb) st).last_failure_time ≠ none := by
    intro l
    induction l with
    | nil => intro st h; exact h
    | cons op l ih =>
      intro st h
      exact ih (cb_step cb st op) (cb_step_open_lft cb st h op)
  have hl : (cb_run cb ops).last_failure_time ≠ none :=
    hinv ops initial_cb_state (by intro hcon; simp [initial_cb_state] at hcon) ho
  refine ⟨hl, ?_⟩
  cases hopt : (cb_run cb ops).last_failure_time with
  | none => exact absurd hopt hl
  | some t =>
    refine ⟨t, rfl, ?_⟩
    intro now hgt
    unfold can_execute
    rw [ho, hopt]
    simp [hgt]

/-- C9, witness: with `failure_threshold = 1`, a single `record_failure` at
instant 0 opens the circuit, and the reached state indeed carries a recorded
failure time past which `can_execute` grants again. -/
theorem c9_witness :
    (cb_run { failure_threshold := 1 } [.recFailure 0]).last_failure_time ≠ none ∧
    ∃ t, (cb_run { failure_threshold := 1 } [.recFailure 0]).last_failure_time = some t ∧
      ∀ now, now - t > ({ failure_threshold := 1 } : CBSettings).recovery_timeout →
        (can_execute { failure_threshold := 1 }
          (cb_run { failure_threshold := 1 } [.recFailure 0]) now).1 = true :=
  c9_open_has_failure_time { failure_threshold := 1 } [.recFailure 0] rfl
